import Mathlib

/-!
Shallow embedding of the `autom8` browser-automation crate (session/command
orchestration layer over the WebDriver BiDi protocol).

Modelling conventions:
* A protocol round-trip to the collaborator is represented by its outcome,
  an `Except String α` value supplied as an argument (`.error e` is a
  transport-level failure with message `e`).
* Script evaluation results (`EvaluateResult` of `webdriverbidi`) are the
  tagged union below; exception details and non-primitive remote values are
  carried as their formatted debug strings.
* The two polling loops in `nav.rs` and `input.rs` run while
  `start_time.elapsed() < timeout`, sleeping a fixed interval per iteration
  (200 ms and 100 ms); polls are modelled as instantaneous, so the loop of
  the source performs exactly `ceil(timeout / interval)` iterations when the
  condition never holds.  The loops are embedded structurally with that
  iteration count as fuel, and they additionally return the number of poll
  commands issued.
* `Vec` indexing (`contexts[0]` in `Browser::open`) panics on an empty
  vector; this is modelled by the explicit `panicked` outcome.
-/

/-- Primitive protocol values of `webdriverbidi::model::script::PrimitiveProtocolValue`
(the variants the crate matches on, plus a representative for the rest). -/
inductive PrimitiveProtocolValue where
  | stringValue (value : String)
  | booleanValue (value : Bool)
  | nullValue
  | undefinedValue
  | numberValue (text : String)
deriving DecidableEq

/-- Remote values of `webdriverbidi::model::script::RemoteValue`: a primitive
protocol value or any non-primitive remote value (carried as a tag). -/
inductive RemoteValue where
  | primitiveProtocolValue (value : PrimitiveProtocolValue)
  | nonPrimitiveValue (tag : String)
deriving DecidableEq

/-- Evaluation results of `webdriverbidi::model::script::EvaluateResult`. -/
inductive EvaluateResult where
  | evaluateResultSuccess (result : RemoteValue)
  | evaluateResultException (exceptionDetails : String)
  | emptyResult
deriving DecidableEq

/-- The error enumeration of `src/error.rs` (`BrowserError`). -/
inductive BrowserError where
  | sessionCreation (msg : String)
  | sessionClosing (msg : String)
  | navigation (msg : String)
  | action (msg : String)
  | element (msg : String)
  | cookie (msg : String)
  | javaScript (msg : String)
  | localStorage (msg : String)
  | screenshot (msg : String)
  | assertion (msg : String)
  | unknown (msg : String)
deriving DecidableEq

/-- Character-level rendering of the Rust call `selector.replace("\"", "\\\"")`:
every double-quote character is replaced by a backslash followed by a
double quote; all other characters are kept. -/
def escapeChars : List Char → List Char
  | [] => []
  | c :: rest => if c = '"' then '\\' :: '"' :: escapeChars rest else c :: escapeChars rest

/-- The escaping applied to every selector/attribute interpolated into script
source (`selector.replace("\"", "\\\"")` in `extract.rs`, `input.rs`,
`assertions.rs`). -/
def escapeQuotes (s : String) : String :=
  String.mk (escapeChars s.data)

/-- A character list contains the escaped form of a double quote: a backslash
immediately followed by a double quote. -/
def containsEscapedQuote (l : List Char) : Prop :=
  ∃ p q, l = p ++ '\\' :: '"' :: q

/-- Helper scanning a character list with the previous character: `true` iff
every double quote is immediately preceded by a backslash. -/
def noUnescQ (prev : Char) : List Char → Bool
  | [] => true
  | c :: rest => (decide (c ≠ '"') || decide (prev = '\\')) && noUnescQ c rest

/-- Every double quote of the list is immediately preceded by a backslash
(so no quote in the interpolated text terminates the surrounding script
string literal on its own). -/
def quotesEscaped (l : List Char) : Bool :=
  noUnescQ 'a' l

namespace assertions

/-- Script built by `assertions::assert_element_present` in `assertions.rs`:
the query-selector presence check with the escaped selector interpolated. -/
def assert_element_present_script (selector : String) : String :=
  "document.querySelector(\"" ++ escapeQuotes selector ++ "\") !== null"

/-- Result decoding of `assertions::assert_element_present` (`assertions.rs`),
as a function of the outcome of the `script.evaluate` round-trip. -/
def assert_element_present (outcome : Except String EvaluateResult) : Except BrowserError Bool :=
  match outcome with
  | .error e => .error (.assertion ("Script evaluation failed: " ++ e))
  | .ok (.evaluateResultSuccess (.primitiveProtocolValue (.booleanValue bool_val))) => .ok bool_val
  | .ok (.evaluateResultSuccess _) => .ok false
  | .ok (.evaluateResultException d) => .error (.assertion ("Script exception: " ++ d))
  | .ok .emptyResult => .error (.assertion "Empty result from script evaluation")

end assertions

namespace extract

/-- Leading part of the `extract_attribute` script template of `extract.rs`,
up to the interpolated (escaped) selector. -/
def extract_attribute_script_pre : String :=
  "\n        (() => \x7b\n            const element = document.querySelector(\""

/-- Middle part of the `extract_attribute` script template of `extract.rs`,
between the interpolated selector and the interpolated attribute name. -/
def extract_attribute_script_mid : String :=
  "\");\n            if (element) \x7b\n                return element.getAttribute(\""

/-- Trailing part of the `extract_attribute` script template of `extract.rs`. -/
def extract_attribute_script_post : String :=
  "\");\n            \x7d else \x7b\n                return undefined;\n            \x7d\n        \x7d)()\n        "

/-- The full script text sent by `extract::extract_attribute`: the template
with the escaped selector and escaped attribute interpolated. -/
def extract_attribute_script (selector attr : String) : String :=
  extract_attribute_script_pre ++ escapeQuotes selector ++
    extract_attribute_script_mid ++ escapeQuotes attr ++ extract_attribute_script_post

/-- Result decoding of `extract::extract_attribute` (`extract.rs`): string →
`some`, null → `none`, undefined → element-not-found error, any other success
shape → unexpected-result error; exceptions and empty results are errors. -/
def extract_attribute (outcome : Except String EvaluateResult) (selector : String) :
    Except BrowserError (Option String) :=
  match outcome with
  | .error e => .error (.element ("Script evaluation failed: " ++ e))
  | .ok (.evaluateResultSuccess (.primitiveProtocolValue (.stringValue string_val))) =>
      .ok (some string_val)
  | .ok (.evaluateResultSuccess (.primitiveProtocolValue .nullValue)) => .ok none
  | .ok (.evaluateResultSuccess (.primitiveProtocolValue .undefinedValue)) =>
      .error (.element ("Element not found with selector: " ++ selector))
  | .ok (.evaluateResultSuccess _) =>
      .error (.element "Unexpected result type from attribute extraction")
  | .ok (.evaluateResultException d) =>
      .error (.element ("Script exception during attribute extraction: " ++ d))
  | .ok .emptyResult => .error (.element "Empty result from attribute extraction script")

/-- Result decoding of `extract::extract_inner_html` (`extract.rs`). -/
def extract_inner_html (outcome : Except String EvaluateResult) (selector : String) :
    Except BrowserError String :=
  match outcome with
  | .error e => .error (.element ("Script evaluation failed: " ++ e))
  | .ok (.evaluateResultSuccess (.primitiveProtocolValue (.stringValue string_val))) =>
      .ok string_val
  | .ok (.evaluateResultSuccess (.primitiveProtocolValue .nullValue)) =>
      .error (.element ("Element not found with selector: " ++ selector))
  | .ok (.evaluateResultSuccess _) =>
      .error (.element "Unexpected result type from innerHTML extraction")
  | .ok (.evaluateResultException d) =>
      .error (.element ("Script exception during innerHTML extraction: " ++ d))
  | .ok .emptyResult => .error (.element "Empty result from innerHTML extraction script")

/-- Result decoding of `extract::extract_inner_text` (`extract.rs`). -/
def extract_inner_text (outcome : Except String EvaluateResult) (selector : String) :
    Except BrowserError String :=
  match outcome with
  | .error e => .error (.element ("Script evaluation failed: " ++ e))
  | .ok (.evaluateResultSuccess (.primitiveProtocolValue (.stringValue string_val))) =>
      .ok string_val
  | .ok (.evaluateResultSuccess (.primitiveProtocolValue .nullValue)) =>
      .error (.element ("Element not found with selector: " ++ selector))
  | .ok (.evaluateResultSuccess _) =>
      .error (.element "Unexpected result type from innerText extraction")
  | .ok (.evaluateResultException d) =>
      .error (.element ("Script exception during innerText extraction: " ++ d))
  | .ok .emptyResult => .error (.element "Empty result from innerText extraction script")

end extract

namespace local_storage

/-- Result decoding of `local_storage::set_local_storage` (`local_storage.rs`):
only a transport failure of the `script.callFunction` round-trip is an error;
the evaluation result itself is discarded. -/
def set_local_storage (outcome : Except String EvaluateResult) : Except BrowserError Unit :=
  match outcome with
  | .error e => .error (.localStorage ("Setting the local storage value failed: " ++ e))
  | .ok _ => .ok ()

/-- Result decoding of `local_storage::get_local_storage` (`local_storage.rs`):
a successful string result is `some`; every other evaluation result —
non-string success, exception, empty — is `none`. -/
def get_local_storage (outcome : Except String EvaluateResult) :
    Except BrowserError (Option String) :=
  match outcome with
  | .error e => .error (.localStorage ("Getting the local storage value failed: " ++ e))
  | .ok (.evaluateResultSuccess (.primitiveProtocolValue (.stringValue string_value))) =>
      .ok (some string_value)
  | .ok (.evaluateResultSuccess _) => .ok none
  | .ok _ => .ok none

end local_storage

namespace screenshot

/-- Result decoding of `screenshot::take_screenshot` (`screenshot.rs`): the
capture command either fails at the transport or returns the base64 data. -/
def take_screenshot (outcome : Except String String) : Except BrowserError String :=
  match outcome with
  | .error e => .error (.screenshot ("Taking the screenshot failed: " ++ e))
  | .ok data => .ok data

end screenshot

namespace input

/-- Result decoding of `input::click_element` (`input.rs`): the click script
returns `true` when the element was found and clicked, `false` when the
selector matched nothing; every other evaluation outcome is an action error. -/
def click_element (outcome : Except String EvaluateResult) (selector : String) :
    Except BrowserError Unit :=
  match outcome with
  | .error e => .error (.action ("Script evaluation failed: " ++ e))
  | .ok (.evaluateResultSuccess (.primitiveProtocolValue (.booleanValue bool_val))) =>
      if bool_val then .ok ()
      else .error (.action ("Element not found with selector: " ++ selector))
  | .ok (.evaluateResultSuccess _) =>
      .error (.action "Unexpected result type from click operation")
  | .ok (.evaluateResultException d) =>
      .error (.action ("Script exception during click: " ++ d))
  | .ok .emptyResult => .error (.action "Empty result from click script evaluation")

/-- A clickability poll iteration of `input::wait_and_click_element` observes
a clickable element exactly when the round-trip succeeds with a boolean
`true`; a transport failure, an exception, an empty result, a non-boolean
success, or boolean `false` all keep polling. -/
def pollDecodesClickable (outcome : Except String EvaluateResult) : Bool :=
  match outcome with
  | .ok (.evaluateResultSuccess (.primitiveProtocolValue (.booleanValue bool_val))) => bool_val
  | _ => false

/-- The polling loop of `input::wait_and_click_element`. `polls i` is the
outcome of the `i`-th clickability evaluation, `clickOutcome` the outcome of
the click script if one is issued, `fuel` the number of iterations of the
source loop `while start_time.elapsed() < timeout` (one iteration per
100 ms sleep), and `i` the index of the next poll. Returns the result, the
number of clickability polls issued, and whether the click was invoked. -/
def wacLoop (polls : Nat → Except String EvaluateResult)
    (clickOutcome : Except String EvaluateResult) (selector timeoutMsg : String) :
    Nat → Nat → Except BrowserError Unit × Nat × Bool
  | 0, i => (.error (.action timeoutMsg), i, false)
  | fuel + 1, i =>
      if pollDecodesClickable (polls i) then (click_element clickOutcome selector, i + 1, true)
      else wacLoop polls clickOutcome selector timeoutMsg fuel (i + 1)

/-- Embedding of `input::wait_and_click_element` (`input.rs`): polls the
clickability predicate every 100 ms until it decodes `true` (then delegates
to `click_element`) or until the deadline — `ceil(timeout / 100)` iterations
of the source loop — expires with an action-timeout error naming the selector
and the timeout in milliseconds. -/
def wait_and_click_element (polls : Nat → Except String EvaluateResult)
    (clickOutcome : Except String EvaluateResult) (selector : String)
    (timeout_ms : Option Nat) : Except BrowserError Unit × Nat × Bool :=
  let timeout := timeout_ms.getD 5000
  wacLoop polls clickOutcome selector
    ("Element with selector \x27" ++ selector ++ "\x27 did not become clickable within " ++
      toString timeout ++ " milliseconds")
    ((timeout + 99) / 100) 0

end input

namespace nav

/-- Result decoding of `nav::load` (`nav.rs`): the navigate command either
fails at the transport (mapped to a navigation error) or succeeds. -/
def load (outcome : Except String Unit) : Except BrowserError Unit :=
  match outcome with
  | .error e => .error (.navigation e)
  | .ok _ => .ok ()

/-- History delta used by `nav::go_back`. -/
def BACK_DELTA : Int := -1

/-- History delta used by `nav::go_forward`. -/
def FORWARD_DELTA : Int := 1

/-- Result decoding of `nav::traverse_history` (`nav.rs`). -/
def traverse_history (outcome : Except String Unit) : Except BrowserError Unit :=
  match outcome with
  | .error e => .error (.navigation ("Navigating the history failed: " ++ e))
  | .ok _ => .ok ()

/-- Embedding of `nav::go_back`: a history traversal with delta −1. -/
def go_back (outcome : Except String Unit) : Except BrowserError Unit :=
  traverse_history outcome

/-- Embedding of `nav::go_forward`: a history traversal with delta +1. -/
def go_forward (outcome : Except String Unit) : Except BrowserError Unit :=
  traverse_history outcome

/-- Result decoding of `nav::reload` (`nav.rs`). -/
def reload (outcome : Except String Unit) : Except BrowserError Unit :=
  match outcome with
  | .error e => .error (.navigation e)
  | .ok _ => .ok ()

/-- A readiness poll iteration of `nav::wait_for_page_load` observes a loaded
page exactly when the round-trip succeeds with the string `"complete"`;
`"interactive"`, `"loading"`, any other string, a non-string success, an
exception, an empty result, or a transport failure all keep polling. -/
def pollDecodesComplete (outcome : Except String EvaluateResult) : Bool :=
  match outcome with
  | .ok (.evaluateResultSuccess (.primitiveProtocolValue (.stringValue state))) =>
      state == "complete"
  | _ => false

/-- The polling loop of `nav::wait_for_page_load`. `polls i` is the outcome
of the `i`-th `document.readyState` evaluation, `fuel` the number of
iterations of the source loop `while start_time.elapsed() < timeout` (one
iteration per 200 ms sleep), and `i` the index of the next poll. Returns the
result and the number of polls issued. -/
def wfplLoop (polls : Nat → Except String EvaluateResult) (timeoutMsg : String) :
    Nat → Nat → Except BrowserError Unit × Nat
  | 0, i => (.error (.navigation timeoutMsg), i)
  | fuel + 1, i =>
      if pollDecodesComplete (polls i) then (.ok (), i + 1)
      else wfplLoop polls timeoutMsg fuel (i + 1)

/-- Embedding of `nav::wait_for_page_load` (`nav.rs`): polls
`document.readyState` every 200 ms until it decodes `"complete"` or until the
deadline — `ceil(timeout / 200)` iterations of the source loop — expires with
a navigation timeout error naming the timeout in milliseconds. -/
def wait_for_page_load (polls : Nat → Except String EvaluateResult)
    (timeout_ms : Option Nat) : Except BrowserError Unit × Nat :=
  let timeout := timeout_ms.getD 10000
  wfplLoop polls ("Page load timeout after " ++ toString timeout ++ " milliseconds")
    ((timeout + 199) / 200) 0

end nav

/-- The state of `Browser` (`browser.rs`) relevant to the orchestration
layer: the cached current browsing-context identifier. The session handle is
an external collaborator and appears only through the outcome arguments of
each operation. -/
structure Browser where
  browsing_context : Option String
deriving DecidableEq

/-- Outcome of `Browser::open`, which can panic (Rust `Vec` indexing) in
addition to returning `Ok` or `Err`. -/
inductive OpenResult where
  | ok (b : Browser)
  | err (e : BrowserError)
  | panicked (msg : String)
deriving DecidableEq

/-- Embedding of `Browser::new`: fresh instance, no browsing context cached. -/
def Browser.new : Browser :=
  { browsing_context := none }

/-- Embedding of `Browser::get_context` (`browser.rs`): the cached context
identifier, or a navigation error when none is cached. -/
def Browser.get_context (b : Browser) : Except BrowserError String :=
  match b.browsing_context with
  | none => .error (.navigation "No browsing context available")
  | some ctx => .ok ctx

/-- Embedding of `Browser::open` (`browser.rs`). `startOutcome` is the
outcome of `session.start()`, `treeOutcome` the outcome of
`browsingContext.getTree` (the list of context identifiers of the returned
tree). The source adopts `get_tree_rslt.contexts[0]`; on an empty vector this
`Vec` index panics, modelled by `panicked` with the Rust index panic message.
The second component counts the protocol commands issued. -/
def Browser.open (b : Browser) (startOutcome : Except String Unit)
    (treeOutcome : Except String (List String)) : OpenResult × Nat :=
  match startOutcome with
  | .error e => (.err (.sessionCreation ("Starting the WebDriverBiDi session failed: " ++ e)), 1)
  | .ok _ =>
      match treeOutcome with
      | .error e =>
          (.err (.sessionCreation ("The browsingContext.getTree command failed: " ++ e)), 2)
      | .ok [] => (.panicked "index out of bounds: the len is 0 but the index is 0", 2)
      | .ok (c :: _) => (.ok { b with browsing_context := some c }, 2)

/-- Embedding of `Browser::close` (`browser.rs`): issues the close command
without resolving a context and leaves the instance (in particular the cached
`browsing_context`) unchanged. Returns result, the instance after the call,
and the number of protocol commands issued. -/
def Browser.close (b : Browser) (closeOutcome : Except String Unit) :
    Except BrowserError Unit × Browser × Nat :=
  match closeOutcome with
  | .error e =>
      (.error (.sessionClosing ("Closing the WebDriver BiDi session failed: " ++ e)), b, 1)
  | .ok _ => (.ok (), b, 1)

/-- Embedding of `Browser::load`: resolves the context, then issues one
navigate command. -/
def Browser.load (b : Browser) (url : String) (navOutcome : Except String Unit) :
    Except BrowserError Unit × Nat :=
  match b.get_context with
  | .error e => (.error e, 0)
  | .ok _ => (nav.load navOutcome, 1)

/-- Embedding of `Browser::go_back`: resolves the context, then issues one
history-traversal command. -/
def Browser.go_back (b : Browser) (outcome : Except String Unit) :
    Except BrowserError Unit × Nat :=
  match b.get_context with
  | .error e => (.error e, 0)
  | .ok _ => (nav.go_back outcome, 1)

/-- Embedding of `Browser::go_forward`: resolves the context, then issues one
history-traversal command. -/
def Browser.go_forward (b : Browser) (outcome : Except String Unit) :
    Except BrowserError Unit × Nat :=
  match b.get_context with
  | .error e => (.error e, 0)
  | .ok _ => (nav.go_forward outcome, 1)

/-- Embedding of `Browser::reload`: resolves the context, then issues one
reload command. -/
def Browser.reload (b : Browser) (outcome : Except String Unit) :
    Except BrowserError Unit × Nat :=
  match b.get_context with
  | .error e => (.error e, 0)
  | .ok _ => (nav.reload outcome, 1)

/-- Embedding of `Browser::wait_for_page_load`: resolves the context, then
runs the readiness polling loop (one evaluate command per poll). -/
def Browser.wait_for_page_load (b : Browser) (polls : Nat → Except String EvaluateResult)
    (timeout_ms : Option Nat) : Except BrowserError Unit × Nat :=
  match b.get_context with
  | .error e => (.error e, 0)
  | .ok _ => nav.wait_for_page_load polls timeout_ms

/-- Embedding of `Browser::take_screenshot`: resolves the context, then
issues one capture command. -/
def Browser.take_screenshot (b : Browser) (outcome : Except String String) :
    Except BrowserError String × Nat :=
  match b.get_context with
  | .error e => (.error e, 0)
  | .ok _ => (screenshot.take_screenshot outcome, 1)

/-- Embedding of `Browser::set_local_storage_value`: resolves the context,
then issues one callFunction command. -/
def Browser.set_local_storage_value (b : Browser) (key value : String)
    (outcome : Except String EvaluateResult) : Except BrowserError Unit × Nat :=
  match b.get_context with
  | .error e => (.error e, 0)
  | .ok _ => (local_storage.set_local_storage outcome, 1)

/-- Embedding of `Browser::get_local_storage_value`: resolves the context,
then issues one callFunction command. -/
def Browser.get_local_storage_value (b : Browser) (key : String)
    (outcome : Except String EvaluateResult) : Except BrowserError (Option String) × Nat :=
  match b.get_context with
  | .error e => (.error e, 0)
  | .ok _ => (local_storage.get_local_storage outcome, 1)

/-- Embedding of `Browser::assert_element_present`: resolves the context,
then issues one evaluate command. -/
def Browser.assert_element_present (b : Browser) (selector : String)
    (outcome : Except String EvaluateResult) : Except BrowserError Bool × Nat :=
  match b.get_context with
  | .error e => (.error e, 0)
  | .ok _ => (assertions.assert_element_present outcome, 1)

/-- Embedding of `Browser::click_element`: resolves the context, then issues
one evaluate command. -/
def Browser.click_element (b : Browser) (selector : String)
    (outcome : Except String EvaluateResult) : Except BrowserError Unit × Nat :=
  match b.get_context with
  | .error e => (.error e, 0)
  | .ok _ => (input.click_element outcome selector, 1)

/-- Embedding of `Browser::wait_and_click_element`: resolves the context,
then runs the clickability polling loop (one evaluate command per poll, plus
one for the click when it fires). -/
def Browser.wait_and_click_element (b : Browser) (selector : String)
    (polls : Nat → Except String EvaluateResult)
    (clickOutcome : Except String EvaluateResult) (timeout_ms : Option Nat) :
    Except BrowserError Unit × Nat :=
  match b.get_context with
  | .error e => (.error e, 0)
  | .ok _ =>
      match input.wait_and_click_element polls clickOutcome selector timeout_ms with
      | (r, n, clicked) => (r, n + if clicked then 1 else 0)

/-- Embedding of `Browser::click_and_wait`: clicks the element, and only when
the click succeeded waits for the page load. -/
def Browser.click_and_wait (b : Browser) (selector : String)
    (clickEval : Except String EvaluateResult) (polls : Nat → Except String EvaluateResult)
    (page_load_timeout_ms : Option Nat) : Except BrowserError Unit × Nat :=
  match b.click_element selector clickEval with
  | (.error e, n) => (.error e, n)
  | (.ok _, n) =>
      match b.wait_for_page_load polls page_load_timeout_ms with
      | (r, m) => (r, n + m)

/-- In the output of `escapeChars`, every double quote is immediately
preceded by a backslash, whatever character preceded the output. -/
theorem noUnescQ_escapeChars (l : List Char) : ∀ prev, noUnescQ prev (escapeChars l) = true := by
  induction l with
  | nil => intro prev; rfl
  | cons c rest ih =>
      intro prev
      by_cases hc : c = '"'
      · subst hc
        simp [escapeChars, noUnescQ, ih]
      · simp [escapeChars, hc, noUnescQ, ih]

/-- The escaped form of any string passes the unescaped-quote check. -/
theorem quotesEscaped_escapeQuotes (s : String) : quotesEscaped (escapeQuotes s).data = true := by
  simpa [quotesEscaped, escapeQuotes] using noUnescQ_escapeChars s.data 'a'

/-- If the input contains a double quote, the output of `escapeChars`
contains the escaped pair backslash-quote. -/
theorem escapeChars_containsEscapedQuote (l : List Char) (h : '"' ∈ l) :
    containsEscapedQuote (escapeChars l) := by
  induction l with
  | nil => cases h
  | cons c rest ih =>
      by_cases hc : c = '"'
      · subst hc
        exact ⟨[], escapeChars rest, by simp [escapeChars]⟩
      · have hr : '"' ∈ rest := by
          rcases List.mem_cons.mp h with h0 | hr
          · exact absurd h0.symm hc
          · exact hr
        obtain ⟨p, q, hpq⟩ := ih hr
        exact ⟨c :: p, q, by simp [escapeChars, hc, hpq]⟩

/-- C6: for every selector (and attribute name) containing a double quote,
the script text sent to the collaborator — both the `extract_attribute`
script and the `assert_element_present` script — contains the escaped form
of that character, and the interpolated text contains no unescaped double
quote (every double quote in it is immediately preceded by a backslash), so
the interpolation produces no script syntax error attributable to unescaped
quoting. -/
theorem C6_escaping (selector attr : String) (h : '"' ∈ selector.data) :
    containsEscapedQuote (extract.extract_attribute_script selector attr).data ∧
    containsEscapedQuote (assertions.assert_element_present_script selector).data ∧
    quotesEscaped (escapeQuotes selector).data = true ∧
    quotesEscaped (escapeQuotes attr).data = true := by
  obtain ⟨p, q, hpq⟩ := escapeChars_containsEscapedQuote selector.data h
  refine ⟨?_, ?_, quotesEscaped_escapeQuotes selector, quotesEscaped_escapeQuotes attr⟩
  · refine ⟨extract.extract_attribute_script_pre.data ++ p,
      q ++ extract.extract_attribute_script_mid.data ++ (escapeQuotes attr).data ++
        extract.extract_attribute_script_post.data, ?_⟩
    simp [extract.extract_attribute_script, escapeQuotes, String.data_append, hpq]
  · refine ⟨("document.querySelector(\"" : String).data ++ p,
      q ++ ("\") !== null" : String).data, ?_⟩
    simp [assertions.assert_element_present_script, escapeQuotes, String.data_append, hpq]

/-- Witness for C6 at a concrete selector containing a double quote. -/
theorem C6_escaping_witness :
    containsEscapedQuote (extract.extract_attribute_script "a[data-x=\"1\"]" "href").data ∧
    containsEscapedQuote (assertions.assert_element_present_script "a[data-x=\"1\"]").data ∧
    quotesEscaped (escapeQuotes "a[data-x=\"1\"]").data = true ∧
    quotesEscaped (escapeQuotes "href").data = true :=
  C6_escaping "a[data-x=\"1\"]" "href" (by decide)

/-- C3: `extract_attribute` yields `some value` exactly on a decoded string,
`none` exactly on decoded null (element present, attribute absent or null),
the element-not-found error on decoded undefined, and the unexpected-result
error on every other decoded success shape — the `none` case and the error
case are never conflated. -/
theorem C3_extract_attribute (outcome : Except String EvaluateResult) (selector : String) :
    (∀ v, extract.extract_attribute outcome selector = .ok (some v) ↔
      outcome = .ok (.evaluateResultSuccess (.primitiveProtocolValue (.stringValue v)))) ∧
    (extract.extract_attribute outcome selector = .ok none ↔
      outcome = .ok (.evaluateResultSuccess (.primitiveProtocolValue .nullValue))) ∧
    extract.extract_attribute (.ok (.evaluateResultSuccess
        (.primitiveProtocolValue .undefinedValue))) selector =
      .error (.element ("Element not found with selector: " ++ selector)) ∧
    (∀ r : RemoteValue, (∀ v, r ≠ .primitiveProtocolValue (.stringValue v)) →
      r ≠ .primitiveProtocolValue .nullValue → r ≠ .primitiveProtocolValue .undefinedValue →
      extract.extract_attribute (.ok (.evaluateResultSuccess r)) selector =
        .error (.element "Unexpected result type from attribute extraction")) := by
  refine ⟨?_, ?_, rfl, ?_⟩
  · intro v
    constructor
    · intro hv
      match outcome with
      | .error e => simp [extract.extract_attribute] at hv
      | .ok (.evaluateResultSuccess (.primitiveProtocolValue (.stringValue w))) =>
          simp [extract.extract_attribute] at hv
          simp [hv]
      | .ok (.evaluateResultSuccess (.primitiveProtocolValue (.booleanValue w))) =>
          simp [extract.extract_attribute] at hv
      | .ok (.evaluateResultSuccess (.primitiveProtocolValue .nullValue)) =>
          simp [extract.extract_attribute] at hv
      | .ok (.evaluateResultSuccess (.primitiveProtocolValue .undefinedValue)) =>
          simp [extract.extract_attribute] at hv
      | .ok (.evaluateResultSuccess (.primitiveProtocolValue (.numberValue t))) =>
          simp [extract.extract_attribute] at hv
      | .ok (.evaluateResultSuccess (.nonPrimitiveValue t)) =>
          simp [extract.extract_attribute] at hv
      | .ok (.evaluateResultException d) => simp [extract.extract_attribute] at hv
      | .ok .emptyResult => simp [extract.extract_attribute] at hv
    · intro hv
      subst hv
      rfl
  · constructor
    · intro hv
      match outcome with
      | .error e => simp [extract.extract_attribute] at hv
      | .ok (.evaluateResultSuccess (.primitiveProtocolValue (.stringValue w))) =>
          simp [extract.extract_attribute] at hv
      | .ok (.evaluateResultSuccess (.primitiveProtocolValue (.booleanValue w))) =>
          simp [extract.extract_attribute] at hv
      | .ok (.evaluateResultSuccess (.primitiveProtocolValue .nullValue)) => rfl
      | .ok (.evaluateResultSuccess (.primitiveProtocolValue .undefinedValue)) =>
          simp [extract.extract_attribute] at hv
      | .ok (.evaluateResultSuccess (.primitiveProtocolValue (.numberValue t))) =>
          simp [extract.extract_attribute] at hv
      | .ok (.evaluateResultSuccess (.nonPrimitiveValue t)) =>
          simp [extract.extract_attribute] at hv
      | .ok (.evaluateResultException d) => simp [extract.extract_attribute] at hv
      | .ok .emptyResult => simp [extract.extract_attribute] at hv
    · intro hv
      subst hv
      rfl
  · intro r hs hn hu
    match r with
    | .primitiveProtocolValue (.stringValue w) => exact absurd rfl (hs w)
    | .primitiveProtocolValue (.booleanValue w) => rfl
    | .primitiveProtocolValue .nullValue => exact absurd rfl hn
    | .primitiveProtocolValue .undefinedValue => exact absurd rfl hu
    | .primitiveProtocolValue (.numberValue t) => rfl
    | .nonPrimitiveValue t => rfl

/-- Witness for C3 at concrete decoded results. -/
theorem C3_extract_attribute_witness :
    extract.extract_attribute (.ok (.evaluateResultSuccess
        (.primitiveProtocolValue (.stringValue "v1")))) "a" = .ok (some "v1") ∧
    extract.extract_attribute (.ok (.evaluateResultSuccess
        (.primitiveProtocolValue .nullValue))) "a" = .ok none ∧
    extract.extract_attribute (.ok (.evaluateResultSuccess
        (.primitiveProtocolValue .undefinedValue))) "a" =
      .error (.element ("Element not found with selector: " ++ "a")) ∧
    extract.extract_attribute (.ok (.evaluateResultSuccess
        (.primitiveProtocolValue (.booleanValue true)))) "a" =
      .error (.element "Unexpected result type from attribute extraction") :=
  ⟨((C3_extract_attribute (.ok (.evaluateResultSuccess
      (.primitiveProtocolValue (.stringValue "v1")))) "a").1 "v1").mpr rfl,
   (C3_extract_attribute (.ok (.evaluateResultSuccess
      (.primitiveProtocolValue .nullValue))) "a").2.1.mpr rfl,
   (C3_extract_attribute (.error "unused") "a").2.2.1,
   (C3_extract_attribute (.error "unused") "a").2.2.2
     (.primitiveProtocolValue (.booleanValue true))
     (fun v hv => by cases hv) (by intro hv; cases hv) (by intro hv; cases hv)⟩

/-- C8: `assert_element_present` returns `Ok b` on a decoded boolean `b`
(`Ok true` only on decoded boolean `true`), returns `Ok false` rather than an
error on any non-boolean success result, and surfaces an exception outcome as
an assertion error. -/
theorem C8_assert_element_present (outcome : Except String EvaluateResult) :
    (∀ b, outcome = .ok (.evaluateResultSuccess (.primitiveProtocolValue (.booleanValue b))) →
      assertions.assert_element_present outcome = .ok b) ∧
    (assertions.assert_element_present outcome = .ok true ↔
      outcome = .ok (.evaluateResultSuccess (.primitiveProtocolValue (.booleanValue true)))) ∧
    (∀ r : RemoteValue, (∀ b, r ≠ .primitiveProtocolValue (.booleanValue b)) →
      assertions.assert_element_present (.ok (.evaluateResultSuccess r)) = .ok false) ∧
    (∀ d, assertions.assert_element_present (.ok (.evaluateResultException d)) =
      .error (.assertion ("Script exception: " ++ d))) := by
  refine ⟨?_, ?_, ?_, fun d => rfl⟩
  · intro b hb
    subst hb
    rfl
  · constructor
    · intro h
      match outcome with
      | .error e => simp [assertions.assert_element_present] at h
      | .ok (.evaluateResultSuccess (.primitiveProtocolValue (.stringValue w))) =>
          simp [assertions.assert_element_present] at h
      | .ok (.evaluateResultSuccess (.primitiveProtocolValue (.booleanValue w))) =>
          simp [assertions.assert_element_present] at h
          simp [h]
      | .ok (.evaluateResultSuccess (.primitiveProtocolValue .nullValue)) =>
          simp [assertions.assert_element_present] at h
      | .ok (.evaluateResultSuccess (.primitiveProtocolValue .undefinedValue)) =>
          simp [assertions.assert_element_present] at h
      | .ok (.evaluateResultSuccess (.primitiveProtocolValue (.numberValue t))) =>
          simp [assertions.assert_element_present] at h
      | .ok (.evaluateResultSuccess (.nonPrimitiveValue t)) =>
          simp [assertions.assert_element_present] at h
      | .ok (.evaluateResultException d) => simp [assertions.assert_element_present] at h
      | .ok .emptyResult => simp [assertions.assert_element_present] at h
    · intro h
      subst h
      rfl
  · intro r hb
    match r with
    | .primitiveProtocolValue (.stringValue w) => rfl
    | .primitiveProtocolValue (.booleanValue w) => exact absurd rfl (hb w)
    | .primitiveProtocolValue .nullValue => rfl
    | .primitiveProtocolValue .undefinedValue => rfl
    | .primitiveProtocolValue (.numberValue t) => rfl
    | .nonPrimitiveValue t => rfl

/-- Witness for C8 at concrete decoded results. -/
theorem C8_assert_element_present_witness :
    assertions.assert_element_present (.ok (.evaluateResultSuccess
        (.primitiveProtocolValue (.booleanValue true)))) = .ok true ∧
    assertions.assert_element_present (.ok (.evaluateResultSuccess
        (.primitiveProtocolValue (.stringValue "x")))) = .ok false ∧
    assertions.assert_element_present (.ok (.evaluateResultException "E")) =
      .error (.assertion ("Script exception: " ++ "E")) :=
  ⟨(C8_assert_element_present (.ok (.evaluateResultSuccess
      (.primitiveProtocolValue (.booleanValue true))))).2.1.mpr rfl,
   (C8_assert_element_present (.error "unused")).2.2.1
     (.primitiveProtocolValue (.stringValue "x")) (fun b hb => by cases hb),
   (C8_assert_element_present (.error "unused")).2.2.2 "E"⟩

/-- C1: when the session starts successfully and the context-tree fetch
succeeds but returns no contexts, `Browser::open` panics (the `contexts[0]`
index on the empty vector) instead of failing with a session-creation error;
no browsing context is adopted and no error value is returned. -/
theorem C1_open_panics_on_empty_tree :
    Browser.open Browser.new (.ok ()) (.ok []) =
      (.panicked "index out of bounds: the len is 0 but the index is 0", 2) :=
  rfl

/-- C2 counterexample: when the `script.callFunction` round-trip yields an
exception or an empty result, `get_local_storage` returns `Ok none` and
`set_local_storage` returns `Ok ()` — not an error — refuting the claim that
these operations always propagate exceptions and empty results as errors. -/
theorem C2_counterexample :
    local_storage.get_local_storage
        (.ok (.evaluateResultException "TypeError: boom")) = .ok none ∧
    local_storage.get_local_storage (.ok .emptyResult) = .ok none ∧
    local_storage.set_local_storage
        (.ok (.evaluateResultException "TypeError: boom")) = .ok () :=
  ⟨rfl, rfl, rfl⟩

/-- C2 amended: for the click, extraction and assertion script-running
operations an exception outcome propagates as an error carrying the
exception details and an empty result is an error; but `get_local_storage`
maps exception and empty outcomes to `Ok none`, and `set_local_storage`
returns `Ok` for every evaluation outcome (only a transport failure is an
error). -/
theorem C2_amended (d selector : String) (r : EvaluateResult) :
    input.click_element (.ok (.evaluateResultException d)) selector =
      .error (.action ("Script exception during click: " ++ d)) ∧
    input.click_element (.ok .emptyResult) selector =
      .error (.action "Empty result from click script evaluation") ∧
    extract.extract_inner_html (.ok (.evaluateResultException d)) selector =
      .error (.element ("Script exception during innerHTML extraction: " ++ d)) ∧
    extract.extract_inner_html (.ok .emptyResult) selector =
      .error (.element "Empty result from innerHTML extraction script") ∧
    extract.extract_inner_text (.ok (.evaluateResultException d)) selector =
      .error (.element ("Script exception during innerText extraction: " ++ d)) ∧
    extract.extract_inner_text (.ok .emptyResult) selector =
      .error (.element "Empty result from innerText extraction script") ∧
    extract.extract_attribute (.ok (.evaluateResultException d)) selector =
      .error (.element ("Script exception during attribute extraction: " ++ d)) ∧
    extract.extract_attribute (.ok .emptyResult) selector =
      .error (.element "Empty result from attribute extraction script") ∧
    assertions.assert_element_present (.ok (.evaluateResultException d)) =
      .error (.assertion ("Script exception: " ++ d)) ∧
    assertions.assert_element_present (.ok .emptyResult) =
      .error (.assertion "Empty result from script evaluation") ∧
    local_storage.get_local_storage (.ok (.evaluateResultException d)) = .ok none ∧
    local_storage.get_local_storage (.ok .emptyResult) = .ok none ∧
    local_storage.set_local_storage (.ok r) = .ok () :=
  ⟨rfl, rfl, rfl, rfl, rfl, rfl, rfl, rfl, rfl, rfl, rfl, rfl, rfl⟩

/-- C7 counterexample: `close` is a public operation other than `open`, yet
on an instance with no cached browsing context it does not fail fast with the
navigation error — it proceeds to issue the session-close protocol command
and succeeds. -/
theorem C7_counterexample :
    Browser.close Browser.new (.ok ()) = (.ok (), Browser.new, 1) :=
  rfl

/-- C7 amended: every public operation other than `open` and `close` first
resolves the current browsing context, failing fast with the navigation
error "No browsing context available" and issuing zero protocol commands
when none is cached (as after `Browser::new`, before `open`); `close` issues
its protocol command without resolving a context. -/
theorem C7_amended (url selector key value : String) (o : Except String Unit)
    (cap : Except String String) (ev co : Except String EvaluateResult)
    (polls : Nat → Except String EvaluateResult) (t : Option Nat)
    (closeO : Except String Unit) :
    Browser.get_context Browser.new = .error (.navigation "No browsing context available") ∧
    Browser.load Browser.new url o =
      (.error (.navigation "No browsing context available"), 0) ∧
    Browser.go_back Browser.new o =
      (.error (.navigation "No browsing context available"), 0) ∧
    Browser.go_forward Browser.new o =
      (.error (.navigation "No browsing context available"), 0) ∧
    Browser.reload Browser.new o =
      (.error (.navigation "No browsing context available"), 0) ∧
    Browser.wait_for_page_load Browser.new polls t =
      (.error (.navigation "No browsing context available"), 0) ∧
    Browser.take_screenshot Browser.new cap =
      (.error (.navigation "No browsing context available"), 0) ∧
    Browser.set_local_storage_value Browser.new key value ev =
      (.error (.navigation "No browsing context available"), 0) ∧
    Browser.get_local_storage_value Browser.new key ev =
      (.error (.navigation "No browsing context available"), 0) ∧
    Browser.assert_element_present Browser.new selector ev =
      (.error (.navigation "No browsing context available"), 0) ∧
    Browser.click_element Browser.new selector ev =
      (.error (.navigation "No browsing context available"), 0) ∧
    Browser.wait_and_click_element Browser.new selector polls co t =
      (.error (.navigation "No browsing context available"), 0) ∧
    Browser.click_and_wait Browser.new selector ev polls t =
      (.error (.navigation "No browsing context available"), 0) ∧
    (Browser.close Browser.new closeO).2.2 = 1 := by
  refine ⟨rfl, rfl, rfl, rfl, rfl, rfl, rfl, rfl, rfl, rfl, rfl, rfl, rfl, ?_⟩
  cases closeO <;> rfl

/-- C9: `close` leaves the cached browsing-context identifier unchanged,
whether the underlying session close succeeds or fails. -/
theorem C9_close_preserves_context (b : Browser) (closeOutcome : Except String Unit) :
    (Browser.close b closeOutcome).2.1.browsing_context = b.browsing_context := by
  cases closeOutcome <;> rfl

/-- When no readiness poll ever decodes `"complete"` — every iteration fails
or reports another state — the load-wait loop consumes all its fuel and ends
in the timeout error, issuing one poll per iteration. -/
theorem wfplLoop_timeout (polls : Nat → Except String EvaluateResult) (msg : String)
    (h : ∀ j, nav.pollDecodesComplete (polls j) = false) :
    ∀ fuel i, nav.wfplLoop polls msg fuel i = (.error (.navigation msg), i + fuel) := by
  intro fuel
  induction fuel with
  | zero => intro i; rfl
  | succ f ih =>
      intro i
      simp [nav.wfplLoop, h i, ih (i + 1)]
      omega

/-- When the first readiness poll that decodes `"complete"` is within the
fuel bound, the load-wait loop returns success right after that poll. -/
theorem wfplLoop_complete (polls : Nat → Except String EvaluateResult) (msg : String) :
    ∀ fuel i k, k < fuel → nav.pollDecodesComplete (polls (i + k)) = true →
      (∀ d, d < k → nav.pollDecodesComplete (polls (i + d)) = false) →
      nav.wfplLoop polls msg fuel i = (.ok (), i + k + 1) := by
  intro fuel
  induction fuel with
  | zero => intro i k hk _ _; exact absurd hk (Nat.not_lt_zero k)
  | succ f ih =>
      intro i k hk htrue hprev
      cases k with
      | zero =>
          have h0 : nav.pollDecodesComplete (polls i) = true := by simpa using htrue
          simp [nav.wfplLoop, h0]
      | succ kk =>
          have h0 : nav.pollDecodesComplete (polls i) = false := by
            simpa using hprev 0 (Nat.succ_pos kk)
          have ht : nav.pollDecodesComplete (polls (i + 1 + kk)) = true := by
            have hrw : i + 1 + kk = i + (kk + 1) := by omega
            rw [hrw]
            exact htrue
          have hp : ∀ d, d < kk → nav.pollDecodesComplete (polls (i + 1 + d)) = false := by
            intro d hd
            have hrw : i + 1 + d = i + (d + 1) := by omega
            rw [hrw]
            exact hprev (d + 1) (by omega)
          have hrec := ih (i + 1) kk (by omega) ht hp
          simp [nav.wfplLoop, h0, hrec]
          omega

/-- C4: `wait_for_page_load` returns success right after the first poll that
decodes the string `"complete"` when that poll happens before the deadline
(at 200 ms per iteration), having issued exactly that many polls; and when no
poll ever decodes `"complete"` — in particular when every poll fails or
reports `"interactive"`/`"loading"` — it returns the navigation timeout error
naming the configured duration, after polling for the whole duration (the
virtual elapsed time `200 * polls` reaches the timeout but overshoots it by
less than one 200 ms interval); a failed poll iteration never ends the loop
early. -/
theorem C4_wait_for_page_load (polls : Nat → Except String EvaluateResult)
    (timeout_ms : Option Nat) :
    (∀ i, nav.pollDecodesComplete (polls i) = true →
      (∀ j, j < i → nav.pollDecodesComplete (polls j) = false) →
      200 * i < timeout_ms.getD 10000 →
      nav.wait_for_page_load polls timeout_ms = (.ok (), i + 1)) ∧
    ((∀ i, nav.pollDecodesComplete (polls i) = false) →
      nav.wait_for_page_load polls timeout_ms =
        (.error (.navigation ("Page load timeout after " ++
          toString (timeout_ms.getD 10000) ++ " milliseconds")),
         (timeout_ms.getD 10000 + 199) / 200) ∧
      timeout_ms.getD 10000 ≤ 200 * ((timeout_ms.getD 10000 + 199) / 200) ∧
      200 * ((timeout_ms.getD 10000 + 199) / 200) < timeout_ms.getD 10000 + 200) := by
  constructor
  · intro i hi hprev hlt
    have hk : i < (timeout_ms.getD 10000 + 199) / 200 := by omega
    have hmain := wfplLoop_complete polls
      ("Page load timeout after " ++ toString (timeout_ms.getD 10000) ++ " milliseconds")
      ((timeout_ms.getD 10000 + 199) / 200) 0 i hk (by simpa using hi)
      (by intro d hd; simpa using hprev d hd)
    simpa [nav.wait_for_page_load] using hmain
  · intro hall
    refine ⟨?_, by omega, by omega⟩
    have hmain := wfplLoop_timeout polls
      ("Page load timeout after " ++ toString (timeout_ms.getD 10000) ++ " milliseconds")
      hall ((timeout_ms.getD 10000 + 199) / 200) 0
    simpa [nav.wait_for_page_load] using hmain

/-- Witness for C4: a page already complete on the first poll succeeds after
one poll; a page whose polls always fail times out with the default 10000 ms
deadline after 50 polls. -/
theorem C4_wait_for_page_load_witness :
    nav.wait_for_page_load
      (fun _ => .ok (.evaluateResultSuccess
        (.primitiveProtocolValue (.stringValue "complete")))) (some 1000) = (.ok (), 1) ∧
    nav.wait_for_page_load (fun _ => .error "transport failure") none =
      (.error (.navigation "Page load timeout after 10000 milliseconds"), 50) :=
  ⟨(C4_wait_for_page_load (fun _ => .ok (.evaluateResultSuccess
      (.primitiveProtocolValue (.stringValue "complete")))) (some 1000)).1 0 (by decide)
      (fun j hj => absurd hj (Nat.not_lt_zero j)) (by decide),
   ((C4_wait_for_page_load (fun _ => .error "transport failure") none).2 (fun i => rfl)).1⟩

/-- When no clickability poll ever decodes boolean `true`, the
clickability-wait loop consumes all its fuel and ends in the action-timeout
error, never invoking the click. -/
theorem wacLoop_timeout (polls : Nat → Except String EvaluateResult)
    (clickOutcome : Except String EvaluateResult) (selector msg : String)
    (h : ∀ j, input.pollDecodesClickable (polls j) = false) :
    ∀ fuel i, input.wacLoop polls clickOutcome selector msg fuel i =
      (.error (.action msg), i + fuel, false) := by
  intro fuel
  induction fuel with
  | zero => intro i; rfl
  | succ f ih =>
      intro i
      simp [input.wacLoop, h i, ih (i + 1)]
      omega

/-- If the clickability-wait loop reports that the click was invoked, some
poll decoded boolean `true`. -/
theorem wacLoop_clicked (polls : Nat → Except String EvaluateResult)
    (clickOutcome : Except String EvaluateResult) (selector msg : String) :
    ∀ fuel i, (input.wacLoop polls clickOutcome selector msg fuel i).2.2 = true →
      ∃ j, input.pollDecodesClickable (polls j) = true := by
  intro fuel
  induction fuel with
  | zero => intro i h; simp [input.wacLoop] at h
  | succ f ih =>
      intro i h
      by_cases hp : input.pollDecodesClickable (polls i) = true
      · exact ⟨i, hp⟩
      · rw [input.wacLoop, if_neg hp] at h
        exact ih (i + 1) h

/-- When the first clickability poll that decodes `true` is within the fuel
bound, the loop delegates to `click_element` right after that poll. -/
theorem wacLoop_first_true (polls : Nat → Except String EvaluateResult)
    (clickOutcome : Except String EvaluateResult) (selector msg : String) :
    ∀ fuel i k, k < fuel → input.pollDecodesClickable (polls (i + k)) = true →
      (∀ d, d < k → input.pollDecodesClickable (polls (i + d)) = false) →
      input.wacLoop polls clickOutcome selector msg fuel i =
        (input.click_element clickOutcome selector, i + k + 1, true) := by
  intro fuel
  induction fuel with
  | zero => intro i k hk _ _; exact absurd hk (Nat.not_lt_zero k)
  | succ f ih =>
      intro i k hk htrue hprev
      cases k with
      | zero =>
          have h0 : input.pollDecodesClickable (polls i) = true := by simpa using htrue
          simp [input.wacLoop, h0]
      | succ kk =>
          have h0 : input.pollDecodesClickable (polls i) = false := by
            simpa using hprev 0 (Nat.succ_pos kk)
          have ht : input.pollDecodesClickable (polls (i + 1 + kk)) = true := by
            have hrw : i + 1 + kk = i + (kk + 1) := by omega
            rw [hrw]
            exact htrue
          have hp : ∀ d, d < kk → input.pollDecodesClickable (polls (i + 1 + d)) = false := by
            intro d hd
            have hrw : i + 1 + d = i + (d + 1) := by omega
            rw [hrw]
            exact hprev (d + 1) (by omega)
          have hrec := ih (i + 1) kk (by omega) ht hp
          simp [input.wacLoop, h0, hrec]
          omega

/-- C5: `wait_and_click_element` invokes the click action only if some
clickability poll decoded boolean `true`; the first poll decoding `true`
before the deadline (at 100 ms per iteration) makes it delegate to
`click_element` right away; and when no poll ever decodes `true` — failed and
non-boolean iterations only continue polling — it returns, without clicking,
the action-timeout error naming the selector and the configured duration,
after polling for the whole duration (the virtual elapsed time `100 * polls`
reaches the timeout but overshoots it by less than one 100 ms interval). -/
theorem C5_wait_and_click_element (polls : Nat → Except String EvaluateResult)
    (clickOutcome : Except String EvaluateResult) (selector : String)
    (timeout_ms : Option Nat) :
    ((input.wait_and_click_element polls clickOutcome selector timeout_ms).2.2 = true →
      ∃ i, input.pollDecodesClickable (polls i) = true) ∧
    (∀ i, input.pollDecodesClickable (polls i) = true →
      (∀ j, j < i → input.pollDecodesClickable (polls j) = false) →
      100 * i < timeout_ms.getD 5000 →
      input.wait_and_click_element polls clickOutcome selector timeout_ms =
        (input.click_element clickOutcome selector, i + 1, true)) ∧
    ((∀ i, input.pollDecodesClickable (polls i) = false) →
      input.wait_and_click_element polls clickOutcome selector timeout_ms =
        (.error (.action ("Element with selector \x27" ++ selector ++
          "\x27 did not become clickable within " ++ toString (timeout_ms.getD 5000) ++
          " milliseconds")), (timeout_ms.getD 5000 + 99) / 100, false) ∧
      timeout_ms.getD 5000 ≤ 100 * ((timeout_ms.getD 5000 + 99) / 100) ∧
      100 * ((timeout_ms.getD 5000 + 99) / 100) < timeout_ms.getD 5000 + 100) := by
  refine ⟨?_, ?_, ?_⟩
  · intro h
    exact wacLoop_clicked polls clickOutcome selector _ _ 0 h
  · intro i hi hprev hlt
    have hk : i < (timeout_ms.getD 5000 + 99) / 100 := by omega
    have hmain := wacLoop_first_true polls clickOutcome selector
      ("Element with selector \x27" ++ selector ++ "\x27 did not become clickable within " ++
        toString (timeout_ms.getD 5000) ++ " milliseconds")
      ((timeout_ms.getD 5000 + 99) / 100) 0 i hk (by simpa using hi)
      (by intro d hd; simpa using hprev d hd)
    simpa [input.wait_and_click_element] using hmain
  · intro hall
    refine ⟨?_, by omega, by omega⟩
    have hmain := wacLoop_timeout polls clickOutcome selector
      ("Element with selector \x27" ++ selector ++ "\x27 did not become clickable within " ++
        toString (timeout_ms.getD 5000) ++ " milliseconds")
      hall ((timeout_ms.getD 5000 + 99) / 100) 0
    simpa [input.wait_and_click_element] using hmain

/-- Witness for C5: an element clickable on the first poll is clicked after
one poll; an element whose polls always fail times out after 3 polls of a
250 ms deadline without any click. -/
theorem C5_wait_and_click_element_witness :
    (∃ i : Nat, input.pollDecodesClickable ((fun _ : Nat => (Except.ok
      (EvaluateResult.evaluateResultSuccess (RemoteValue.primitiveProtocolValue
        (PrimitiveProtocolValue.booleanValue true))) : Except String EvaluateResult)) i) =
        true) ∧
    input.wait_and_click_element
      (fun _ => .ok (.evaluateResultSuccess (.primitiveProtocolValue (.booleanValue true))))
      (.ok (.evaluateResultSuccess (.primitiveProtocolValue (.booleanValue true))))
      "a#next" (some 500) = (.ok (), 1, true) ∧
    input.wait_and_click_element (fun _ => .error "boom") (.ok .emptyResult)
      "a#next" (some 250) =
      (.error (.action
        "Element with selector \x27a#next\x27 did not become clickable within 250 milliseconds"),
       3, false) :=
  ⟨(C5_wait_and_click_element
      (fun _ : Nat => (Except.ok (EvaluateResult.evaluateResultSuccess
        (RemoteValue.primitiveProtocolValue (PrimitiveProtocolValue.booleanValue true))) :
          Except String EvaluateResult))
      (.ok (.evaluateResultSuccess (.primitiveProtocolValue (.booleanValue true))))
      "a#next" (some 500)).1 rfl,
   (C5_wait_and_click_element
      (fun _ => .ok (.evaluateResultSuccess (.primitiveProtocolValue (.booleanValue true))))
      (.ok (.evaluateResultSuccess (.primitiveProtocolValue (.booleanValue true))))
      "a#next" (some 500)).2.1 0 rfl (fun j hj => absurd hj (Nat.not_lt_zero j)) (by decide),
   ((C5_wait_and_click_element (fun _ => .error "boom") (.ok .emptyResult)
      "a#next" (some 250)).2.2 (fun i => rfl)).1⟩

/-- C10: with a timeout of 0 milliseconds both polling loops return their
timeout error having issued zero poll commands — even when the awaited
condition would already hold on the first poll — because the deadline check
precedes the first poll iteration. -/
theorem C10_zero_timeout (pollsA pollsB : Nat → Except String EvaluateResult)
    (clickOutcome : Except String EvaluateResult) (selector : String) :
    nav.wait_for_page_load pollsA (some 0) =
      (.error (.navigation "Page load timeout after 0 milliseconds"), 0) ∧
    input.wait_and_click_element pollsB clickOutcome selector (some 0) =
      (.error (.action ("Element with selector \x27" ++ selector ++
        "\x27 did not become clickable within " ++ "0" ++ " milliseconds")), 0, false) :=
  ⟨rfl, rfl⟩
